import Mathlib

/-!
Verification of the dolph MySQL agent (src/dolph.ts).

This file shallowly embeds the core logic of the agent: the write-intent
classifier and row limiter (pure string functions), the configuration
resolver, the connection lifecycle (memoized handle), the query permission
gate, and the task dispatcher with its success/error envelope.

External collaborators (the mysql2 driver and the model runtime) are
modelled as oracles collected in a `Driver` record: each driver call is a
function from the driver world to an `Except String` outcome, mirroring an
awaited promise that either resolves or rejects.  Task executors whose
bodies are pure sequences of driver calls (test-connection, list-tables,
get-schema, get-all-schemas, chat) are modelled as single oracle calls
made after `getConnection`, since no claim depends on their internals.
JS numbers that can be NaN (results of `parseInt`) are modelled as
`Option Int` with `none` for NaN.
-/

-- ============================================================================
-- String machinery (JS string primitives used by dolph.ts)
-- ============================================================================

/-- JS `String.prototype.trim`: drop whitespace from both ends. -/
def jsTrim (s : String) : String :=
  ⟨((s.data.dropWhile Char.isWhitespace).reverse.dropWhile Char.isWhitespace).reverse⟩

/-- JS `String.prototype.toUpperCase` (ASCII fragment). -/
def jsUpper (s : String) : String :=
  ⟨s.data.map Char.toUpper⟩

/-- Exact prefix test on character lists (JS `String.prototype.startsWith`). -/
def listStarts : List Char → List Char → Bool
  | [], _ => true
  | _ :: _, [] => false
  | p :: ps, c :: cs => p == c && listStarts ps cs

/-- Case-insensitive prefix test: the anchored `/^(...)/i` regex test. -/
def listStartsCI : List Char → List Char → Bool
  | [], _ => true
  | _ :: _, [] => false
  | p :: ps, c :: cs => Char.toUpper p == Char.toUpper c && listStartsCI ps cs

/-- Substring containment (JS `String.prototype.includes`). -/
def hasSub (needle : List Char) (hay : List Char) : Bool :=
  match hay with
  | [] => listStarts needle []
  | _ :: cs => listStarts needle hay || hasSub needle cs

-- ============================================================================
-- Query classifier & limiter (dolph.ts lines 355-367)
-- ============================================================================

/-- The alternatives of the `WRITE_PATTERNS` regex in dolph.ts. -/
def WRITE_PATTERNS : List String :=
  ["INSERT", "UPDATE", "DELETE", "DROP", "CREATE", "ALTER", "TRUNCATE", "REPLACE"]

/-- `isWriteQuery(sql)`: `WRITE_PATTERNS.test(sql.trim())` — the trimmed
statement case-insensitively begins with one of the write keywords. -/
def isWriteQuery (sql : String) : Bool :=
  WRITE_PATTERNS.any (fun k => listStartsCI k.data (jsTrim sql).data)

/-- JS numbers that may be NaN: `none` is NaN. -/
abbrev JSNum := Option Int

/-- JS number-to-string coercion used by template interpolation. -/
def jsNumToString : JSNum → String
  | some i => toString i
  | none => "NaN"

/-- `enforceLimit(sql, limit)`: append ` LIMIT <limit>` to SELECTs that do
not already contain a ` LIMIT ` token (checked on the trimmed uppercased
form); all other statements pass through unchanged. -/
def enforceLimit (sql : String) (limit : JSNum) : String :=
  let normalized := jsUpper (jsTrim sql)
  if listStarts "SELECT".data normalized.data && ! hasSub " LIMIT ".data normalized.data
  then jsTrim sql ++ " LIMIT " ++ jsNumToString limit
  else sql

-- ============================================================================
-- Configuration resolver (dolph.ts lines 178-235)
-- ============================================================================

/-- Caller-supplied configuration overrides (`MySQLAgentConfig`); every field
optional, mirroring the TS interface. -/
structure MySQLAgentConfig where
  openaiApiKey : Option String := none
  mysqlUrl : Option String := none
  mysqlHost : Option String := none
  mysqlPort : Option Int := none
  mysqlUser : Option String := none
  mysqlPass : Option String := none
  mysqlDb : Option String := none
  allowWrite : Option Bool := none
  rowLimit : Option Int := none
  model : Option String := none
  maxTurns : Option Int := none
deriving DecidableEq

/-- Process environment (`Bun.env`): each variable either unset or a string. -/
structure EnvVars where
  openaiApiKey : Option String := none
  mysqlUrl : Option String := none
  mysqlHost : Option String := none
  mysqlPort : Option String := none
  mysqlUser : Option String := none
  mysqlPass : Option String := none
  mysqlDb : Option String := none
  allowWrite : Option String := none
  rowLimit : Option String := none
  model : Option String := none
  maxTurns : Option String := none
deriving DecidableEq

/-- `Required<MySQLAgentConfig>`: the fully resolved record. -/
structure ResolvedConfig where
  openaiApiKey : String
  mysqlUrl : String
  mysqlHost : String
  mysqlPort : JSNum
  mysqlUser : String
  mysqlPass : String
  mysqlDb : String
  allowWrite : Bool
  rowLimit : JSNum
  model : String
  maxTurns : JSNum
deriving DecidableEq

/-- JS `a || b` where `a` is a possibly-undefined string: undefined and the
empty string are falsy. -/
def jsOrS (a : Option String) (b : String) : String :=
  match a with
  | some s => if s = "" then b else s
  | none => b

/-- JS `a || b` where `a` is a possibly-undefined number: undefined and 0 are
falsy. -/
def jsOrN (a : Option Int) (b : JSNum) : JSNum :=
  match a with
  | some n => if n = 0 then b else some n
  | none => b

/-- Digit-list value, most significant first. -/
def digitsVal (l : List Char) : Nat :=
  l.foldl (fun a c => 10 * a + (c.toNat - 48)) 0

/-- JS `parseInt(s, 10)`: skip leading whitespace, optional sign, maximal
digit run; NaN (`none`) when no digits follow. -/
def jsParseInt (s : String) : JSNum :=
  let l := s.data.dropWhile Char.isWhitespace
  let core := fun (sign : Int) (r : List Char) =>
    let ds := r.takeWhile Char.isDigit
    if ds = [] then none else some (sign * (digitsVal ds : Int))
  match l with
  | '-' :: r => core (-1) r
  | '+' :: r => core 1 r
  | _ => core 1 l

/-- `getConfig()`: resolve overrides, environment and fallbacks with JS `||`
(and `??` for the write flag), exactly as dolph.ts lines 181-195. -/
def getConfig (cfg : MySQLAgentConfig) (env : EnvVars) : ResolvedConfig where
  openaiApiKey := jsOrS cfg.openaiApiKey (jsOrS env.openaiApiKey "")
  mysqlUrl := jsOrS cfg.mysqlUrl (jsOrS env.mysqlUrl "")
  mysqlHost := jsOrS cfg.mysqlHost (jsOrS env.mysqlHost "localhost")
  mysqlPort := jsOrN cfg.mysqlPort (jsParseInt (jsOrS env.mysqlPort "3306"))
  mysqlUser := jsOrS cfg.mysqlUser (jsOrS env.mysqlUser "root")
  mysqlPass := jsOrS cfg.mysqlPass (jsOrS env.mysqlPass "")
  mysqlDb := jsOrS cfg.mysqlDb (jsOrS env.mysqlDb "mysql")
  allowWrite := match cfg.allowWrite with
    | some b => b
    | none => env.allowWrite == some "true"
  rowLimit := jsOrN cfg.rowLimit (jsParseInt (jsOrS env.rowLimit "1000"))
  model := jsOrS cfg.model (jsOrS env.model "gpt-4o-mini")
  maxTurns := jsOrN cfg.maxTurns (jsParseInt (jsOrS env.maxTurns "10"))

/-- Claim C7's resolution rule, taken from the claim's words: each field from
the explicit override when present, otherwise from the environment, otherwise
from the hardcoded fallback. -/
def specStr (ov ev : Option String) (fb : String) : String :=
  ov.getD (ev.getD fb)

/-- Claim-side numeric resolution: override when present, otherwise the
parsed environment value, otherwise the fallback. -/
def specNum (ov : Option Int) (ev : Option String) (fb : Int) : JSNum :=
  match ov with
  | some v => some v
  | none =>
    match ev with
    | some s => jsParseInt s
    | none => some fb

/-- The configuration record claim C7 describes. -/
def specResolveConfig (cfg : MySQLAgentConfig) (env : EnvVars) : ResolvedConfig where
  openaiApiKey := specStr cfg.openaiApiKey env.openaiApiKey ""
  mysqlUrl := specStr cfg.mysqlUrl env.mysqlUrl ""
  mysqlHost := specStr cfg.mysqlHost env.mysqlHost "localhost"
  mysqlPort := specNum cfg.mysqlPort env.mysqlPort 3306
  mysqlUser := specStr cfg.mysqlUser env.mysqlUser "root"
  mysqlPass := specStr cfg.mysqlPass env.mysqlPass ""
  mysqlDb := specStr cfg.mysqlDb env.mysqlDb "mysql"
  allowWrite := match cfg.allowWrite with
    | some b => b
    | none => env.allowWrite == some "true"
  rowLimit := specNum cfg.rowLimit env.rowLimit 1000
  model := specStr cfg.model env.model "gpt-4o-mini"
  maxTurns := specNum cfg.maxTurns env.maxTurns 10

/-- Amended string resolution: the override is used when present and
non-empty, else the environment value when present and non-empty, else the
fallback (JS truthiness applied at each stage). -/
def amendedStr (ov ev : Option String) (fb : String) : String :=
  match ov, ev with
  | some s, some t => if s = "" then (if t = "" then fb else t) else s
  | some s, none => if s = "" then fb else s
  | none, some t => if t = "" then fb else t
  | none, none => fb

/-- Amended environment stage for numeric fields: the environment value
(parsed, possibly NaN) when present and non-empty, else the fallback. -/
def amendedNumEnv (ev : Option String) (fb : Int) : JSNum :=
  match ev with
  | some s => if s = "" then some fb else jsParseInt s
  | none => some fb

/-- Amended numeric resolution: the override is used when present and
non-zero, else the environment stage. -/
def amendedNum (ov : Option Int) (ev : Option String) (fb : Int) : JSNum :=
  match ov with
  | some n => if n = 0 then amendedNumEnv ev fb else some n
  | none => amendedNumEnv ev fb

/-- The configuration record the code actually produces, written per the
amended reading of claim C7. -/
def amendedResolveConfig (cfg : MySQLAgentConfig) (env : EnvVars) : ResolvedConfig where
  openaiApiKey := amendedStr cfg.openaiApiKey env.openaiApiKey ""
  mysqlUrl := amendedStr cfg.mysqlUrl env.mysqlUrl ""
  mysqlHost := amendedStr cfg.mysqlHost env.mysqlHost "localhost"
  mysqlPort := amendedNum cfg.mysqlPort env.mysqlPort 3306
  mysqlUser := amendedStr cfg.mysqlUser env.mysqlUser "root"
  mysqlPass := amendedStr cfg.mysqlPass env.mysqlPass ""
  mysqlDb := amendedStr cfg.mysqlDb env.mysqlDb "mysql"
  allowWrite := match cfg.allowWrite with
    | some b => b
    | none => env.allowWrite == some "true"
  rowLimit := amendedNum cfg.rowLimit env.rowLimit 1000
  model := amendedStr cfg.model env.model "gpt-4o-mini"
  maxTurns := amendedNum cfg.maxTurns env.maxTurns 10

/-- Merge of `{..._config, ...config}`: a field of the new overrides wins
when present. -/
def oMerge {α : Type} (nw old : Option α) : Option α :=
  match nw with
  | some v => some v
  | none => old

/-- The JS object spread in `configureAgent`. -/
def mergeConfig (old nw : MySQLAgentConfig) : MySQLAgentConfig where
  openaiApiKey := oMerge nw.openaiApiKey old.openaiApiKey
  mysqlUrl := oMerge nw.mysqlUrl old.mysqlUrl
  mysqlHost := oMerge nw.mysqlHost old.mysqlHost
  mysqlPort := oMerge nw.mysqlPort old.mysqlPort
  mysqlUser := oMerge nw.mysqlUser old.mysqlUser
  mysqlPass := oMerge nw.mysqlPass old.mysqlPass
  mysqlDb := oMerge nw.mysqlDb old.mysqlDb
  allowWrite := oMerge nw.allowWrite old.allowWrite
  rowLimit := oMerge nw.rowLimit old.rowLimit
  model := oMerge nw.model old.model
  maxTurns := oMerge nw.maxTurns old.maxTurns

/-- `mysql.ConnectionOptions`: either a URI or discrete fields
(`getConnectionConfig`). -/
inductive ConnOptions where
  | uri (u : String)
  | fields (host : String) (port : JSNum) (user pass database : String)
deriving DecidableEq

/-- `getConnectionConfig()`: the URL wins when non-empty. -/
def getConnectionConfig (c : ResolvedConfig) : ConnOptions :=
  if c.mysqlUrl = "" then
    .fields c.mysqlHost c.mysqlPort c.mysqlUser c.mysqlPass c.mysqlDb
  else .uri c.mysqlUrl

-- ============================================================================
-- Process state, driver oracles, connection lifecycle (dolph.ts 178-235)
-- ============================================================================

/-- `Math.round(q * 100) / 100`: two-decimal rounding of durations. -/
def round2 (q : ℚ) : ℚ :=
  ((round (q * 100) : ℤ) : ℚ) / 100

/-- Result of `db.execute`: mysql2 yields either a row array or a result-set
header (for writes); `Array.isArray` distinguishes the two. -/
inductive ExecRes (Row : Type) where
  | rows (l : List Row)
  | header
deriving DecidableEq

/-- The row array dolph.ts extracts: `Array.isArray(result) ? result : []`. -/
def rowsOf {Row : Type} : ExecRes Row → List Row
  | .rows l => l
  | .header => []

/-- External collaborators as oracles.  `Conn` is the driver's connection
handle type, `σ` the external world (database contents, model runtime).
Each field models one awaited driver/runtime interaction, returning
`Except.error` for a rejected promise.  `testConn`, `listTables`,
`getSchemaQ`, `allSchemas` and `runAgent` stand for the statement sequences
of the corresponding executors, whose internals no claim depends on. -/
structure Driver (Conn σ Row Info Tables Schema : Type) where
  connect : ConnOptions → Except String Conn
  endConn : Conn → Except String Unit
  testConn : Conn → σ → Except String (Info × σ)
  listTables : Conn → σ → Bool → Except String (Tables × σ)
  getSchemaQ : Conn → σ → String → Except String (Schema × σ)
  allSchemas : Conn → σ → Except String (List Schema × σ)
  exec : Conn → σ → String → Except String (ExecRes Row × σ)
  runAgent : String → JSNum → σ → Except String (String × σ)

/-- Module-level mutable state of dolph.ts: the memoized `_db` handle, the
`_config` overrides, and the external world. -/
structure ProcState (Conn σ : Type) where
  db : Option Conn
  config : MySQLAgentConfig
  world : σ
deriving DecidableEq

variable {Conn σ Row Info Tables Schema : Type}

/-- `getConnection()`: return the memoized handle, creating one from the
resolved configuration when absent. -/
def getConnection (d : Driver Conn σ Row Info Tables Schema) (env : EnvVars)
    (st : ProcState Conn σ) : Except String Conn × ProcState Conn σ :=
  match st.db with
  | some c => (.ok c, st)
  | none =>
    match d.connect (getConnectionConfig (getConfig st.config env)) with
    | .ok c => (.ok c, { st with db := some c })
    | .error e => (.error e, st)

/-- `closeConnection()`: end the handle when present; a rejected `end()`
propagates and leaves `_db` set. -/
def closeConnection (d : Driver Conn σ Row Info Tables Schema)
    (st : ProcState Conn σ) : Except String Unit × ProcState Conn σ :=
  match st.db with
  | none => (.ok (), st)
  | some c =>
    match d.endConn c with
    | .ok _ => (.ok (), { st with db := none })
    | .error e => (.error e, st)

/-- `configureAgent(config)`: merge overrides into `_config`, then end any
open handle.  The merge happens first, so a rejected `end()` leaves the
merged configuration with the old handle still present. -/
def configureAgent (d : Driver Conn σ Row Info Tables Schema)
    (cfg : MySQLAgentConfig) (st : ProcState Conn σ) :
    Except String Unit × ProcState Conn σ :=
  let st1 : ProcState Conn σ := { st with config := mergeConfig st.config cfg }
  match st1.db with
  | none => (.ok (), st1)
  | some c =>
    match d.endConn c with
    | .ok _ => (.ok (), { st1 with db := none })
    | .error e => (.error e, st1)

-- ============================================================================
-- Query executor and permission gate (dolph.ts 369-395)
-- ============================================================================

/-- Error text of the caller-side gate. -/
def callerGateMsg : String := "Write operations require allowWrite=true parameter"

/-- Error text of the configuration-side gate. -/
def configGateMsg : String :=
  "Write operations disabled by configuration. Set MYSQL_ALLOW_WRITE=true"

/-- `QueryResult`: rows, row count, duration of the execute call. -/
structure QueryResultM (Row : Type) where
  rows : List Row
  row_count : Nat
  duration_ms : ℚ
deriving DecidableEq

/-- `runQueryImpl(sql, allowWrite)`: resolve configuration, obtain the
connection, apply the dual write gate (caller flag checked first), limit the
statement and execute it.  `dt` is the elapsed time the wrapping
`performance.now()` pair measured around the execute call. -/
def runQueryImpl (d : Driver Conn σ Row Info Tables Schema) (env : EnvVars)
    (st : ProcState Conn σ) (sql : String) (allowWrite : Bool) (dt : ℚ) :
    Except String (QueryResultM Row) × ProcState Conn σ :=
  let cfg := getConfig st.config env
  match getConnection d env st with
  | (.error e, st1) => (.error e, st1)
  | (.ok c, st1) =>
    let runExec : Except String (QueryResultM Row) × ProcState Conn σ :=
      let finalSql := enforceLimit sql cfg.rowLimit
      match d.exec c st1.world finalSql with
      | .error e => (.error e, st1)
      | .ok (res, w) =>
        (.ok ⟨rowsOf res, (rowsOf res).length, round2 dt⟩, { st1 with world := w })
    if isWriteQuery sql then
      if !allowWrite then (.error callerGateMsg, st1)
      else if !cfg.allowWrite then (.error configGateMsg, st1)
      else runExec
    else runExec

-- ============================================================================
-- Task requests, envelopes and the dispatcher (dolph.ts 96-111, 548-636)
-- ============================================================================

/-- `ListTablesParams`. -/
structure ListTablesParams where
  includeRowCounts : Option Bool
deriving DecidableEq

/-- `GetSchemaParams`. -/
structure GetSchemaParams where
  tableName : String
deriving DecidableEq

/-- `QueryParams`. -/
structure QueryParams where
  sql : String
  allowWrite : Option Bool
deriving DecidableEq

/-- `ChatParams`. -/
structure ChatParams where
  message : String
deriving DecidableEq

/-- The tagged task union.  Required parameter payloads are `Option`s so that
malformed runtime requests (a missing `params` object) are representable;
`unknown` covers tags outside the enum, hitting the `default` arm. -/
inductive TaskParams where
  | testConnection
  | listTables (params : Option ListTablesParams)
  | getSchema (params : Option GetSchemaParams)
  | getAllSchemas
  | query (params : Option QueryParams)
  | chat (params : Option ChatParams)
  | unknown (tag : String)
deriving DecidableEq

/-- The data payloads the dispatcher can place in an envelope. -/
inductive TaskData (Row Info Tables Schema : Type) where
  | conn (i : Info)
  | tables (t : Tables)
  | schema (s : Schema)
  | schemas (l : List Schema)
  | query (q : QueryResultM Row)
  | chat (s : String)
deriving DecidableEq

/-- `AgentResult`: the success/error envelope; every field beyond `success`
is optional, as in the TS interface. -/
structure AgentResult (δ : Type) where
  success : Bool
  data : Option δ
  error : Option String
  duration_ms : Option ℚ
deriving DecidableEq

/-- The JS `TypeError` raised by reading a field of a missing `params`
object (`taskInput.params.<field>` with `params` undefined). -/
def tyErr (field : String) : String :=
  "Cannot read properties of undefined (reading " ++ field ++ ")"

/-- The body of the dispatcher's `switch`: route the request to its executor.
Throws (`Except.error`) exactly where the corresponding JS code throws. -/
def runTask (d : Driver Conn σ Row Info Tables Schema) (env : EnvVars)
    (ti : TaskParams) (st : ProcState Conn σ) (dt : ℚ) :
    Except String (TaskData Row Info Tables Schema) × ProcState Conn σ :=
  match ti with
  | .testConnection =>
    match getConnection d env st with
    | (.error e, st1) => (.error e, st1)
    | (.ok c, st1) =>
      match d.testConn c st1.world with
      | .error e => (.error e, st1)
      | .ok (i, w) => (.ok (.conn i), { st1 with world := w })
  | .listTables p =>
    match getConnection d env st with
    | (.error e, st1) => (.error e, st1)
    | (.ok c, st1) =>
      match d.listTables c st1.world ((p.bind (·.includeRowCounts)).getD false) with
      | .error e => (.error e, st1)
      | .ok (t, w) => (.ok (.tables t), { st1 with world := w })
  | .getSchema none => (.error (tyErr "tableName"), st)
  | .getSchema (some p) =>
    match getConnection d env st with
    | (.error e, st1) => (.error e, st1)
    | (.ok c, st1) =>
      match d.getSchemaQ c st1.world p.tableName with
      | .error e => (.error e, st1)
      | .ok (s, w) => (.ok (.schema s), { st1 with world := w })
  | .getAllSchemas =>
    match getConnection d env st with
    | (.error e, st1) => (.error e, st1)
    | (.ok c, st1) =>
      match d.allSchemas c st1.world with
      | .error e => (.error e, st1)
      | .ok (l, w) => (.ok (.schemas l), { st1 with world := w })
  | .query none => (.error (tyErr "sql"), st)
  | .query (some p) =>
    match runQueryImpl d env st p.sql (p.allowWrite.getD false) dt with
    | (.error e, st1) => (.error e, st1)
    | (.ok q, st1) => (.ok (.query q), st1)
  | .chat none => (.error (tyErr "message"), st)
  | .chat (some p) =>
    match d.runAgent p.message (getConfig st.config env).maxTurns st.world with
    | .error e => (.error e, st)
    | .ok (s, w) => (.ok (.chat s), { st with world := w })
  | .unknown tag => (.error ("Unknown task: " ++ tag), st)

/-- The dispatcher's try/catch around the switch: every executor outcome is
converted into an envelope carrying the elapsed time `round2 (t1 - t0)`. -/
def dispatchBody (d : Driver Conn σ Row Info Tables Schema) (env : EnvVars)
    (ti : TaskParams) (st : ProcState Conn σ) (t0 t1 dt : ℚ) :
    AgentResult (TaskData Row Info Tables Schema) × ProcState Conn σ :=
  match runTask d env ti st dt with
  | (.ok data, st1) => (⟨true, some data, none, some (round2 (t1 - t0))⟩, st1)
  | (.error e, st1) => (⟨false, none, some e, some (round2 (t1 - t0))⟩, st1)

/-- `executeMySQLTask(taskInput, config?)`: apply the configuration argument
(outside the try/catch, so a rejected `end()` of the previous handle
propagates as `Except.error`), then time and dispatch the request.  `t0`
and `t1` are the two `performance.now()` readings around the dispatch. -/
def executeMySQLTask (d : Driver Conn σ Row Info Tables Schema) (env : EnvVars)
    (ti : TaskParams) (config : Option MySQLAgentConfig) (st : ProcState Conn σ)
    (t0 t1 dt : ℚ) :
    Except String (AgentResult (TaskData Row Info Tables Schema)) × ProcState Conn σ :=
  match config with
  | some c =>
    match configureAgent d c st with
    | (.error e, st1) => (.error e, st1)
    | (.ok _, st1) =>
      match dispatchBody d env ti st1 t0 t1 dt with
      | (r, st2) => (.ok r, st2)
  | none =>
    match dispatchBody d env ti st t0 t1 dt with
    | (r, st2) => (.ok r, st2)

/-- Options of the `executeQuery` convenience wrapper. -/
structure ExecuteQueryOptions where
  allowWrite : Option Bool
  config : Option MySQLAgentConfig
deriving DecidableEq

/-- `executeQuery(sql, options?)`: apply `options.config` when present, then
delegate to `executeMySQLTask` with a QUERY task. -/
def executeQuery (d : Driver Conn σ Row Info Tables Schema) (env : EnvVars)
    (sql : String) (options : Option ExecuteQueryOptions) (st : ProcState Conn σ)
    (t0 t1 dt : ℚ) :
    Except String (AgentResult (TaskData Row Info Tables Schema)) × ProcState Conn σ :=
  match options with
  | some o =>
    match o.config with
    | some c =>
      match configureAgent d c st with
      | (.error e, st1) => (.error e, st1)
      | (.ok _, st1) =>
        executeMySQLTask d env (.query (some ⟨sql, o.allowWrite⟩)) none st1 t0 t1 dt
    | none =>
      executeMySQLTask d env (.query (some ⟨sql, o.allowWrite⟩)) none st t0 t1 dt
  | none =>
    executeMySQLTask d env (.query (some ⟨sql, none⟩)) none st t0 t1 dt

-- ============================================================================
-- Concrete instantiations used by witnesses and counterexamples
-- ============================================================================

/-- A benign driver over a `Nat` world (thought of as a row count): every
call succeeds, and `exec` bumps the world so that executed statements are
observable. -/
def okDriver : Driver Unit Nat Unit Unit Unit Unit where
  connect := fun _ => .ok ()
  endConn := fun _ => .ok ()
  testConn := fun _ w => .ok ((), w)
  listTables := fun _ w _ => .ok ((), w)
  getSchemaQ := fun _ w _ => .ok ((), w)
  allSchemas := fun _ w => .ok ([], w)
  exec := fun _ w _ => .ok (.header, w + 1)
  runAgent := fun m _ w => .ok (m, w)

/-- The benign driver with an `end()` that rejects. -/
def endFailDriver : Driver Unit Nat Unit Unit Unit Unit :=
  { okDriver with endConn := fun _ => .error "end failed" }

/-- State with no open handle, empty overrides, ten rows stored. -/
def st10 : ProcState Unit Nat := ⟨none, {}, 10⟩

/-- State with an open handle, empty overrides, ten rows stored. -/
def stOpen : ProcState Unit Nat := ⟨some (), {}, 10⟩

/-- State whose overrides enable writes (configuration gate open). -/
def stWriteOn : ProcState Unit Nat := ⟨none, { allowWrite := some true }, 10⟩

-- ============================================================================
-- Helper lemmas
-- ============================================================================

theorem strDataAppend (a b : String) : (a ++ b).data = a.data ++ b.data := rfl

theorem listStarts_iff_append (p l : List Char) :
    listStarts p l = true ↔ ∃ r, l = p ++ r := by
  induction p generalizing l with
  | nil => simp [listStarts]
  | cons x xs ih =>
    cases l with
    | nil => simp [listStarts]
    | cons c cs =>
      simp only [listStarts, Bool.and_eq_true, beq_iff_eq, ih, List.cons_append,
        List.cons.injEq]
      constructor
      · rintro ⟨rfl, r, rfl⟩; exact ⟨r, rfl, rfl⟩
      · rintro ⟨r, rfl, rfl⟩; exact ⟨rfl, r, rfl⟩

theorem listStartsCI_eq_upper (p l : List Char) :
    listStartsCI p l = listStarts (p.map Char.toUpper) (l.map Char.toUpper) := by
  induction p generalizing l with
  | nil => simp [listStartsCI, listStarts]
  | cons x xs ih =>
    cases l with
    | nil => simp [listStartsCI, listStarts]
    | cons c cs => simp [listStartsCI, listStarts, ih]

theorem getConnection_world (d : Driver Conn σ Row Info Tables Schema)
    (env : EnvVars) (st : ProcState Conn σ) :
    (getConnection d env st).2.world = st.world ∧
    (getConnection d env st).2.config = st.config := by
  unfold getConnection
  cases st.db with
  | some c => exact ⟨rfl, rfl⟩
  | none =>
    cases d.connect (getConnectionConfig (getConfig st.config env)) with
    | ok c => exact ⟨rfl, rfl⟩
    | error e => exact ⟨rfl, rfl⟩

theorem round2_nonneg {q : ℚ} (hq : 0 ≤ q) : 0 ≤ round2 q := by
  unfold round2
  have h1 : (0 : ℤ) ≤ round (q * 100) := by
    rw [round_eq]
    exact Int.le_floor.mpr (by push_cast; linarith)
  have h2 : (0 : ℚ) ≤ ((round (q * 100) : ℤ) : ℚ) := by exact_mod_cast h1
  positivity

theorem listStarts_cons (p c : Char) (ps cs : List Char) :
    listStarts (p :: ps) (c :: cs) = (p == c && listStarts ps cs) := rfl

theorem listStarts_cons_false {p c : Char} (ps cs : List Char) (h : p ≠ c) :
    listStarts (p :: ps) (c :: cs) = false := by
  rw [listStarts_cons, beq_eq_false_iff_ne.mpr h, Bool.false_and]

theorem write_kw_upper : ∀ k ∈ WRITE_PATTERNS, k.data.map Char.toUpper = k.data := by
  decide

/-- Claim C2: `isWriteQuery` returns true iff the SQL string, after trimming,
case-insensitively begins with one of INSERT, UPDATE, DELETE, DROP, CREATE,
ALTER, TRUNCATE, REPLACE; in particular it returns false for every string
beginning (after trimming, case-insensitively) with SELECT, SHOW or
DESCRIBE. -/
theorem c2_isWriteQuery_classification (sql : String) :
    (isWriteQuery sql = true ↔
      ∃ k ∈ WRITE_PATTERNS,
        listStarts k.data ((jsTrim sql).data.map Char.toUpper) = true) ∧
    (listStarts "SELECT".data ((jsTrim sql).data.map Char.toUpper) = true →
      isWriteQuery sql = false) ∧
    (listStarts "SHOW".data ((jsTrim sql).data.map Char.toUpper) = true →
      isWriteQuery sql = false) ∧
    (listStarts "DESCRIBE".data ((jsTrim sql).data.map Char.toUpper) = true →
      isWriteQuery sql = false) := by
  have hiff : isWriteQuery sql = true ↔
      ∃ k ∈ WRITE_PATTERNS,
        listStarts k.data ((jsTrim sql).data.map Char.toUpper) = true := by
    rw [isWriteQuery, List.any_eq_true]
    constructor
    · rintro ⟨k, hk, hT⟩
      refine ⟨k, hk, ?_⟩
      rw [← write_kw_upper k hk, ← listStartsCI_eq_upper]
      exact hT
    · rintro ⟨k, hk, hT⟩
      refine ⟨k, hk, ?_⟩
      rw [listStartsCI_eq_upper, write_kw_upper k hk]
      exact hT
  refine ⟨hiff, ?_, ?_, ?_⟩
  · intro hS
    cases hw : isWriteQuery sql with
    | false => rfl
    | true =>
      exfalso
      obtain ⟨k, hk, hT⟩ := hiff.mp hw
      obtain ⟨r, hm⟩ := (listStarts_iff_append _ _).mp hS
      rw [hm, show "SELECT".data = ['S', 'E', 'L', 'E', 'C', 'T'] from rfl,
        List.cons_append, List.cons_append, List.cons_append, List.cons_append,
        List.cons_append, List.cons_append, List.nil_append] at hT
      simp only [WRITE_PATTERNS, List.mem_cons, List.not_mem_nil, or_false] at hk
      rcases hk with rfl | rfl | rfl | rfl | rfl | rfl | rfl | rfl <;>
        rw [listStarts_cons_false _ _ (by decide)] at hT <;> exact absurd hT (by decide)
  · intro hS
    cases hw : isWriteQuery sql with
    | false => rfl
    | true =>
      exfalso
      obtain ⟨k, hk, hT⟩ := hiff.mp hw
      obtain ⟨r, hm⟩ := (listStarts_iff_append _ _).mp hS
      rw [hm, show "SHOW".data = ['S', 'H', 'O', 'W'] from rfl,
        List.cons_append, List.cons_append, List.cons_append, List.cons_append,
        List.nil_append] at hT
      simp only [WRITE_PATTERNS, List.mem_cons, List.not_mem_nil, or_false] at hk
      rcases hk with rfl | rfl | rfl | rfl | rfl | rfl | rfl | rfl <;>
        rw [listStarts_cons_false _ _ (by decide)] at hT <;> exact absurd hT (by decide)
  · intro hS
    cases hw : isWriteQuery sql with
    | false => rfl
    | true =>
      exfalso
      obtain ⟨k, hk, hT⟩ := hiff.mp hw
      obtain ⟨r, hm⟩ := (listStarts_iff_append _ _).mp hS
      rw [hm, show "DESCRIBE".data = ['D', 'E', 'S', 'C', 'R', 'I', 'B', 'E'] from rfl,
        List.cons_append, List.cons_append, List.cons_append, List.cons_append,
        List.cons_append, List.cons_append, List.cons_append, List.cons_append,
        List.nil_append] at hT
      simp only [WRITE_PATTERNS, List.mem_cons, List.not_mem_nil, or_false] at hk
      rcases hk with rfl | rfl | rfl | rfl | rfl | rfl | rfl | rfl
      · exact absurd hT (by rw [listStarts_cons_false _ _ (by decide)]; decide)
      · exact absurd hT (by rw [listStarts_cons_false _ _ (by decide)]; decide)
      · -- DELETE: agrees on D, E, then L vs S
        simp only [show "DELETE".data = ['D', 'E', 'L', 'E', 'T', 'E'] from rfl,
          listStarts_cons, Bool.and_eq_true, beq_iff_eq] at hT
        exact absurd hT.2.2.1 (by decide)
      · -- DROP: agrees on D, then R vs E
        simp only [show "DROP".data = ['D', 'R', 'O', 'P'] from rfl,
          listStarts_cons, Bool.and_eq_true, beq_iff_eq] at hT
        exact absurd hT.2.1 (by decide)
      · exact absurd hT (by rw [listStarts_cons_false _ _ (by decide)]; decide)
      · exact absurd hT (by rw [listStarts_cons_false _ _ (by decide)]; decide)
      · exact absurd hT (by rw [listStarts_cons_false _ _ (by decide)]; decide)
      · exact absurd hT (by rw [listStarts_cons_false _ _ (by decide)]; decide)

/-- Witness for C2: a concrete write statement is classified as write-intent
and a concrete SELECT is not. -/
theorem c2_isWriteQuery_classification_witness :
    isWriteQuery "  drop TABLE users" = true ∧ isWriteQuery " SELECT 1" = false := by
  constructor
  · exact (c2_isWriteQuery_classification "  drop TABLE users").1.mpr
      ⟨"DROP", by decide, by decide⟩
  · exact (c2_isWriteQuery_classification " SELECT 1").2.1 (by decide)

/-- Claim C3: for every SQL string that (trimmed, case-insensitively) begins
with SELECT and whose uppercased form does not contain the substring
` LIMIT `, `enforceLimit sql n` returns a string ending in ` LIMIT n`; for
every SELECT already containing ` LIMIT ` and for every non-SELECT string,
`enforceLimit` returns the input unchanged. -/
theorem c3_enforceLimit_shape (sql : String) (n : JSNum) :
    (listStarts "SELECT".data (jsUpper (jsTrim sql)).data = true →
      hasSub " LIMIT ".data (jsUpper (jsTrim sql)).data = false →
      ∃ p, (enforceLimit sql n).data = p ++ (" LIMIT ".data ++ (jsNumToString n).data)) ∧
    (listStarts "SELECT".data (jsUpper (jsTrim sql)).data = true →
      hasSub " LIMIT ".data (jsUpper (jsTrim sql)).data = true →
      enforceLimit sql n = sql) ∧
    (listStarts "SELECT".data (jsUpper (jsTrim sql)).data = false →
      enforceLimit sql n = sql) := by
  refine ⟨?_, ?_, ?_⟩
  · intro h1 h2
    refine ⟨(jsTrim sql).data, ?_⟩
    simp only [enforceLimit, h1, h2, Bool.not_false, Bool.and_true, if_true]
    rw [strDataAppend, strDataAppend, List.append_assoc]
  · intro h1 h2
    simp [enforceLimit, h1, h2]
  · intro h1
    simp [enforceLimit, h1]

/-- Witness for C3: a SELECT without a limit gains ` LIMIT 5`; a write
statement passes through unchanged. -/
theorem c3_enforceLimit_shape_witness :
    (∃ p, (enforceLimit "select id from users" (some 5)).data =
      p ++ (" LIMIT ".data ++ (jsNumToString (some 5)).data)) ∧
    enforceLimit "DELETE FROM users" (some 5) = "DELETE FROM users" := by
  constructor
  · exact (c3_enforceLimit_shape "select id from users" (some 5)).1 (by decide) (by decide)
  · exact (c3_enforceLimit_shape "DELETE FROM users" (some 5)).2.2 (by decide)

theorem jsOrS_eq_amendedStr (ov ev : Option String) (fb : String) :
    jsOrS ov (jsOrS ev fb) = amendedStr ov ev fb := by
  cases ov <;> cases ev <;> rfl

theorem jsOrN_eq_amendedNum (ov : Option Int) (ev : Option String) (fbs : String)
    (fb : Int) (h : jsParseInt fbs = some fb) :
    jsOrN ov (jsParseInt (jsOrS ev fbs)) = amendedNum ov ev fb := by
  have henv : jsParseInt (jsOrS ev fbs) = amendedNumEnv ev fb := by
    cases ev with
    | none => simpa [jsOrS, amendedNumEnv] using h
    | some t =>
      by_cases ht : t = ""
      · simp [jsOrS, amendedNumEnv, ht, h]
      · simp [jsOrS, amendedNumEnv, ht]
  cases ov with
  | none => simpa [jsOrN, amendedNum] using henv
  | some n =>
    by_cases hn : n = 0
    · simpa [jsOrN, amendedNum, hn] using henv
    · simp [jsOrN, amendedNum, hn]

/-- Counterexample to claim C7: an explicit override `rowLimit := 0` is
present but falsy in JS, so the code resolves the row limit from the
environment (`"50"`), while the claim's "explicit override when present"
rule demands 0. -/
theorem c7_counterexample :
    (getConfig { rowLimit := some 0 } { rowLimit := some "50" }).rowLimit = some 50 ∧
    (specResolveConfig { rowLimit := some 0 } { rowLimit := some "50" }).rowLimit = some 0 ∧
    getConfig { rowLimit := some 0 } { rowLimit := some "50" } ≠
      specResolveConfig { rowLimit := some 0 } { rowLimit := some "50" } := by
  decide

/-- Claim C7 as amended: the resolved configuration takes each string field
from the explicit override when present and non-empty, else from the
environment when present and non-empty, else the fallback; each numeric
field from the override when present and non-zero, else parsed from the
environment value when present and non-empty, else the fallback; the
write-enabled flag from the override whenever present, else true exactly
when the environment variable is the string `true`.  Fallbacks are
host localhost, port 3306, user root, empty password, database mysql,
write-enabled false, row limit 1000, model gpt-4o-mini, max turns 10. -/
theorem c7_getConfig_amended (cfg : MySQLAgentConfig) (env : EnvVars) :
    getConfig cfg env = amendedResolveConfig cfg env := by
  unfold getConfig amendedResolveConfig
  simp only [ResolvedConfig.mk.injEq]
  exact ⟨jsOrS_eq_amendedStr _ _ _, jsOrS_eq_amendedStr _ _ _, jsOrS_eq_amendedStr _ _ _,
    jsOrN_eq_amendedNum _ _ _ _ (by decide), jsOrS_eq_amendedStr _ _ _,
    jsOrS_eq_amendedStr _ _ _, jsOrS_eq_amendedStr _ _ _, trivial,
    jsOrN_eq_amendedNum _ _ _ _ (by decide), jsOrS_eq_amendedStr _ _ _,
    jsOrN_eq_amendedNum _ _ _ _ (by decide)⟩

/-- Counterexample to claim C9: when the driver's `end()` rejects,
`closeConnection` propagates the rejection and the handle is still live, so
"calling it once" does not establish "no live handle". -/
theorem c9_counterexample :
    (closeConnection endFailDriver stOpen).1 = Except.error "end failed" ∧
    (closeConnection endFailDriver stOpen).2.db = some () := by
  exact ⟨rfl, rfl⟩

/-- Claim C9 as amended: `closeConnection` is a no-op when no handle is
open; calling it twice in a row leaves the process in the same state as
calling it once; and whenever the call returns successfully the resulting
state has no live handle (a rejected `end()` propagates and leaves the
handle in place). -/
theorem c9_closeConnection_amended (d : Driver Conn σ Row Info Tables Schema)
    (st : ProcState Conn σ) :
    (st.db = none → closeConnection d st = (Except.ok (), st)) ∧
    (closeConnection d (closeConnection d st).2).2 = (closeConnection d st).2 ∧
    ((closeConnection d st).1 = Except.ok () → (closeConnection d st).2.db = none) := by
  refine ⟨?_, ?_, ?_⟩
  · intro h
    simp [closeConnection, h]
  · cases hdb : st.db with
    | none => simp [closeConnection, hdb]
    | some c =>
      cases he : d.endConn c with
      | ok u => simp [closeConnection, hdb, he]
      | error e => simp [closeConnection, hdb, he]
  · intro h
    cases hdb : st.db with
    | none => simp [closeConnection, hdb]
    | some c =>
      cases he : d.endConn c with
      | ok u => simp [closeConnection, hdb, he]
      | error e => simp [closeConnection, hdb, he] at h

/-- Witness for C9: closing with no handle is a no-op, and a successful
close leaves no live handle. -/
theorem c9_closeConnection_amended_witness :
    closeConnection okDriver st10 = (Except.ok (), st10) ∧
    (closeConnection okDriver stOpen).2.db = none := by
  exact ⟨(c9_closeConnection_amended okDriver st10).1 rfl,
    (c9_closeConnection_amended okDriver stOpen).2.2 rfl⟩

/-- Counterexample to claim C8: when the driver's `end()` rejects during
`configureAgent`, the overrides are already merged but the old handle is
still present — the process is left partially configured, and the next
`getConnection()` would reuse the stale handle. -/
theorem c8_counterexample :
    (configureAgent endFailDriver { allowWrite := some true } stOpen).1 =
      Except.error "end failed" ∧
    (configureAgent endFailDriver { allowWrite := some true } stOpen).2.db = some () ∧
    (configureAgent endFailDriver { allowWrite := some true } stOpen).2.config =
      { allowWrite := some true } := by
  exact ⟨rfl, rfl, rfl⟩

/-- Claim C8 as amended: when `configureAgent` returns successfully, the
overrides are merged, the handle is absent, and the next `getConnection()`
necessarily creates a fresh handle from the merged configuration; when
closing the old handle fails, the call throws with the configuration already
merged and the old handle still present. -/
theorem c8_configureAgent_amended (d : Driver Conn σ Row Info Tables Schema)
    (c : MySQLAgentConfig) (st : ProcState Conn σ)
    (h : (configureAgent d c st).1 = Except.ok ()) :
    (configureAgent d c st).2.db = none ∧
    (configureAgent d c st).2.config = mergeConfig st.config c ∧
    ∀ env, (getConnection d env (configureAgent d c st).2).1 =
      d.connect (getConnectionConfig (getConfig (mergeConfig st.config c) env)) := by
  have hstate : (configureAgent d c st).2.db = none ∧
      (configureAgent d c st).2.config = mergeConfig st.config c := by
    cases hdb : st.db with
    | none => simp [configureAgent, hdb]
    | some c0 =>
      cases he : d.endConn c0 with
      | ok u => simp [configureAgent, hdb, he]
      | error e => simp [configureAgent, hdb, he] at h
  refine ⟨hstate.1, hstate.2, ?_⟩
  intro env
  simp only [getConnection, hstate.1, hstate.2]
  cases hc : d.connect (getConnectionConfig (getConfig (mergeConfig st.config c) env)) with
  | ok c2 => simp
  | error e => simp

/-- Witness for C8: a successful reconfiguration of a state with an open
handle leaves no handle, and the next `getConnection` consults the driver
with the merged configuration. -/
theorem c8_configureAgent_amended_witness :
    (configureAgent okDriver {} stOpen).2.db = none ∧
    (getConnection okDriver {} (configureAgent okDriver {} stOpen).2).1 =
      okDriver.connect (getConnectionConfig (getConfig (mergeConfig stOpen.config {}) {})) := by
  exact ⟨(c8_configureAgent_amended okDriver {} stOpen rfl).1,
    (c8_configureAgent_amended okDriver {} stOpen rfl).2.2 {}⟩

theorem runQueryImpl_gate_reject (d : Driver Conn σ Row Info Tables Schema)
    (env : EnvVars) (st : ProcState Conn σ) (sql : String) (allowW : Bool) (dt : ℚ)
    (hw : isWriteQuery sql = true)
    (hno : allowW = false ∨ (getConfig st.config env).allowWrite = false) :
    (∃ e, (runQueryImpl d env st sql allowW dt).1 = Except.error e) ∧
    (runQueryImpl d env st sql allowW dt).2.world = st.world := by
  rcases hg : getConnection d env st with ⟨cr, st1⟩
  have hw1 : st1.world = st.world := by
    have h := (getConnection_world d env st).1
    rw [hg] at h
    exact h
  cases cr with
  | error e =>
    simp only [runQueryImpl, hg]
    exact ⟨⟨e, rfl⟩, hw1⟩
  | ok c =>
    simp only [runQueryImpl, hg, hw]
    cases allowW with
    | false => exact ⟨⟨callerGateMsg, rfl⟩, hw1⟩
    | true =>
      rcases hno with h | h
      · exact absurd h (by simp)
      · simp only [h]
        exact ⟨⟨configGateMsg, rfl⟩, hw1⟩

theorem runQueryImpl_cases (d : Driver Conn σ Row Info Tables Schema)
    (env : EnvVars) (st : ProcState Conn σ) (sql : String) (allowW : Bool) (dt : ℚ)
    (c : Conn) (st1 : ProcState Conn σ)
    (hw : isWriteQuery sql = true)
    (hconn : getConnection d env st = (Except.ok c, st1)) :
    (allowW = false → runQueryImpl d env st sql allowW dt = (.error callerGateMsg, st1)) ∧
    (allowW = true → (getConfig st.config env).allowWrite = false →
      runQueryImpl d env st sql allowW dt = (.error configGateMsg, st1)) ∧
    (allowW = true → (getConfig st.config env).allowWrite = true →
      runQueryImpl d env st sql allowW dt =
        (match d.exec c st1.world (enforceLimit sql (getConfig st.config env).rowLimit) with
          | .ok (res, w) =>
            (.ok ⟨rowsOf res, (rowsOf res).length, round2 dt⟩, { st1 with world := w })
          | .error e => (.error e, st1))) := by
  refine ⟨?_, ?_, ?_⟩
  · rintro rfl
    simp [runQueryImpl, hconn, hw]
  · rintro rfl hcfg
    simp [runQueryImpl, hconn, hw, hcfg]
  · rintro rfl hcfg
    simp only [runQueryImpl, hconn, hw, hcfg, Bool.not_true, Bool.false_eq_true,
      if_false, if_true]
    rcases he : d.exec c st1.world (enforceLimit sql (getConfig st.config env).rowLimit)
      with e | ⟨res, w⟩ <;> simp [he]

theorem executeMySQLTask_query (d : Driver Conn σ Row Info Tables Schema)
    (env : EnvVars) (st : ProcState Conn σ) (p : QueryParams) (t0 t1 dt : ℚ) :
    executeMySQLTask d env (.query (some p)) none st t0 t1 dt =
      (match runQueryImpl d env st p.sql (p.allowWrite.getD false) dt with
        | (.ok q, st1) =>
          (.ok ⟨true, some (.query q), none, some (round2 (t1 - t0))⟩, st1)
        | (.error e, st1) =>
          (.ok ⟨false, none, some e, some (round2 (t1 - t0))⟩, st1)) := by
  simp only [executeMySQLTask, dispatchBody, runTask]
  rcases hr : runQueryImpl d env st p.sql (p.allowWrite.getD false) dt with ⟨res, st1⟩
  cases res <;> rfl

theorem executeMySQLTask_query_world (d : Driver Conn σ Row Info Tables Schema)
    (env : EnvVars) (st : ProcState Conn σ) (p : QueryParams) (t0 t1 dt : ℚ) :
    (executeMySQLTask d env (.query (some p)) none st t0 t1 dt).2 =
      (runQueryImpl d env st p.sql (p.allowWrite.getD false) dt).2 := by
  rw [executeMySQLTask_query]
  rcases hr : runQueryImpl d env st p.sql (p.allowWrite.getD false) dt with ⟨res, st1⟩
  cases res <;> rfl

/-- Claim C6: for every task request missing a required parameter (no table
name for get-schema, no SQL for query, no message for chat), an error is
raised before any database interaction — the final state equals the initial
state and the result does not depend on the driver — and the dispatcher
reports it as an envelope with success false. -/
theorem c6_missing_params_rejected (d : Driver Conn σ Row Info Tables Schema)
    (env : EnvVars) (st : ProcState Conn σ) (t0 t1 dt : ℚ) :
    executeMySQLTask d env (.getSchema none) none st t0 t1 dt =
      (.ok ⟨false, none, some (tyErr "tableName"), some (round2 (t1 - t0))⟩, st) ∧
    executeMySQLTask d env (.query none) none st t0 t1 dt =
      (.ok ⟨false, none, some (tyErr "sql"), some (round2 (t1 - t0))⟩, st) ∧
    executeMySQLTask d env (.chat none) none st t0 t1 dt =
      (.ok ⟨false, none, some (tyErr "message"), some (round2 (t1 - t0))⟩, st) := by
  exact ⟨rfl, rfl, rfl⟩

/-- Claim C5: every write-classified query rejected by the dual permission
gate (configuration write-enabled false, any caller flag) produces a
success-false envelope and leaves the stored data unchanged: the driver
world of the final state equals the initial one, for every driver. -/
theorem c5_gate_rejection_preserves_data (d : Driver Conn σ Row Info Tables Schema)
    (env : EnvVars) (st : ProcState Conn σ) (sql : String) (aw : Option Bool)
    (t0 t1 dt : ℚ)
    (hw : isWriteQuery sql = true)
    (hcfg : (getConfig st.config env).allowWrite = false) :
    (∃ e, (executeMySQLTask d env (.query (some ⟨sql, aw⟩)) none st t0 t1 dt).1 =
      Except.ok ⟨false, none, some e, some (round2 (t1 - t0))⟩) ∧
    (executeMySQLTask d env (.query (some ⟨sql, aw⟩)) none st t0 t1 dt).2.world =
      st.world := by
  have hrej := runQueryImpl_gate_reject d env st sql (aw.getD false) dt hw (Or.inr hcfg)
  constructor
  · obtain ⟨e, he⟩ := hrej.1
    refine ⟨e, ?_⟩
    rw [executeMySQLTask_query]
    rcases hr : runQueryImpl d env st sql (aw.getD false) dt with ⟨res, st1⟩
    rw [hr] at he
    cases res with
    | ok q => exact absurd he (by simp)
    | error e2 =>
      simp only [Prod.fst] at he
      cases he
      rfl
  · rw [executeMySQLTask_query_world]
    exact hrej.2

/-- Witness for C5: with the default configuration an INSERT is rejected and
the stored row count stays at 10. -/
theorem c5_gate_rejection_preserves_data_witness :
    (∃ e, (executeMySQLTask okDriver {} (.query (some ⟨"INSERT INTO users (email) VALUES (1)", none⟩))
      none st10 0 1 0).1 = Except.ok ⟨false, none, some e, some (round2 (1 - 0))⟩) ∧
    (executeMySQLTask okDriver {} (.query (some ⟨"INSERT INTO users (email) VALUES (1)", none⟩))
      none st10 0 1 0).2.world = st10.world :=
  c5_gate_rejection_preserves_data okDriver {} st10
    "INSERT INTO users (email) VALUES (1)" none 0 1 0 (by decide) (by decide)

/-- Claim C1: for a write-classified SQL string (with the connection
obtainable), dispatching the query task with caller `allowWrite=false`
yields a success-false envelope whose error is the caller-side gate message
(in particular when the configuration enables writes); with caller
`allowWrite=true` and configuration write-enabled false it yields a
success-false envelope with the configuration-side gate message; when both
flags are true the statement is handed to the driver; and whenever either
flag is false the stored data is untouched. -/
theorem c1_dual_write_gate (d : Driver Conn σ Row Info Tables Schema)
    (env : EnvVars) (st : ProcState Conn σ) (sql : String) (t0 t1 dt : ℚ)
    (c : Conn) (st1 : ProcState Conn σ)
    (hw : isWriteQuery sql = true)
    (hconn : getConnection d env st = (Except.ok c, st1)) :
    (executeMySQLTask d env (.query (some ⟨sql, some false⟩)) none st t0 t1 dt =
      (Except.ok ⟨false, none, some callerGateMsg, some (round2 (t1 - t0))⟩, st1)) ∧
    ((getConfig st.config env).allowWrite = false →
      executeMySQLTask d env (.query (some ⟨sql, some true⟩)) none st t0 t1 dt =
        (Except.ok ⟨false, none, some configGateMsg, some (round2 (t1 - t0))⟩, st1)) ∧
    ((getConfig st.config env).allowWrite = true →
      executeMySQLTask d env (.query (some ⟨sql, some true⟩)) none st t0 t1 dt =
        (match d.exec c st1.world (enforceLimit sql (getConfig st.config env).rowLimit) with
          | .ok (res, w) =>
            (Except.ok ⟨true, some (.query ⟨rowsOf res, (rowsOf res).length, round2 dt⟩),
              none, some (round2 (t1 - t0))⟩, { st1 with world := w })
          | .error e =>
            (Except.ok ⟨false, none, some e, some (round2 (t1 - t0))⟩, st1))) ∧
    (∀ aw : Option Bool,
      aw.getD false = false ∨ (getConfig st.config env).allowWrite = false →
      (executeMySQLTask d env (.query (some ⟨sql, aw⟩)) none st t0 t1 dt).2.world =
        st.world) := by
  have hcase := runQueryImpl_cases d env st sql true dt c st1 hw hconn
  refine ⟨?_, ?_, ?_, ?_⟩
  · have h := (runQueryImpl_cases d env st sql false dt c st1 hw hconn).1 rfl
    rw [executeMySQLTask_query]
    simp only [Option.getD_some, h]
  · intro hcfg
    have h := hcase.2.1 rfl hcfg
    rw [executeMySQLTask_query]
    simp only [Option.getD_some, h]
  · intro hcfg
    have h := hcase.2.2 rfl hcfg
    rw [executeMySQLTask_query]
    simp only [Option.getD_some, h]
    rcases he : d.exec c st1.world (enforceLimit sql (getConfig st.config env).rowLimit)
      with e | ⟨res, w⟩ <;> simp [he]
  · intro aw hno
    rw [executeMySQLTask_query_world]
    exact (runQueryImpl_gate_reject d env st sql (aw.getD false) dt hw hno).2

/-- Witness for C1: with writes enabled in the configuration, a caller that
does not pass `allowWrite` gets the caller-side message; with the default
configuration, a caller that does pass it gets the configuration-side
message. -/
theorem c1_dual_write_gate_witness :
    (executeMySQLTask okDriver {} (.query (some ⟨"DROP TABLE users", some false⟩))
      none stWriteOn 0 1 0 =
      (Except.ok ⟨false, none, some callerGateMsg, some (round2 (1 - 0))⟩,
        { stWriteOn with db := some () })) ∧
    (executeMySQLTask okDriver {} (.query (some ⟨"DROP TABLE users", some true⟩))
      none st10 0 1 0 =
      (Except.ok ⟨false, none, some configGateMsg, some (round2 (1 - 0))⟩,
        { st10 with db := some () })) := by
  constructor
  · exact (c1_dual_write_gate okDriver {} stWriteOn "DROP TABLE users" 0 1 0 ()
      { stWriteOn with db := some () } (by decide) rfl).1
  · exact (c1_dual_write_gate okDriver {} st10 "DROP TABLE users" 0 1 0 ()
      { st10 with db := some () } (by decide) rfl).2.1 (by decide)

theorem dispatchBody_shape (d : Driver Conn σ Row Info Tables Schema)
    (env : EnvVars) (ti : TaskParams) (st : ProcState Conn σ) (t0 t1 dt : ℚ) :
    ∃ r st1, dispatchBody d env ti st t0 t1 dt = (r, st1) ∧
      r.duration_ms = some (round2 (t1 - t0)) ∧
      (r.success = true → r.data ≠ none ∧ r.error = none) ∧
      (r.success = false → r.data = none ∧ r.error ≠ none) := by
  simp only [dispatchBody]
  rcases hr : runTask d env ti st dt with ⟨res, st1⟩
  cases res with
  | ok data =>
    exact ⟨_, _, rfl, rfl, fun _ => ⟨by simp, rfl⟩, fun h => by simp at h⟩
  | error e =>
    exact ⟨_, _, rfl, rfl, fun h => by simp at h, fun _ => ⟨rfl, by simp⟩⟩

/-- Counterexample to claim C4: with an explicit configuration argument and
an open handle whose `end()` rejects, the dispatcher itself throws — the
configuration step runs outside the try/catch — so no envelope is
returned. -/
theorem c4_counterexample :
    (executeMySQLTask endFailDriver {} .testConnection (some {}) stOpen 0 1 0).1 =
      Except.error "end failed" := rfl

/-- Claim C4 as amended: for every task request (malformed ones and failing
executors included), provided that no explicit configuration argument is
supplied or applying it succeeds (closing the previous handle does not
reject), the dispatcher returns an envelope whose `duration_ms` is present
and non-negative (for monotone clock readings), with data present and no
error exactly on success, and an error present and no data on failure. -/
theorem c4_dispatch_envelope_amended (d : Driver Conn σ Row Info Tables Schema)
    (env : EnvVars) (ti : TaskParams) (cfgO : Option MySQLAgentConfig)
    (st : ProcState Conn σ) (t0 t1 dt : ℚ)
    (hcfg : ∀ c, cfgO = some c → (configureAgent d c st).1 = Except.ok ())
    (ht : t0 ≤ t1) :
    ∃ r st1, executeMySQLTask d env ti cfgO st t0 t1 dt = (Except.ok r, st1) ∧
      r.duration_ms = some (round2 (t1 - t0)) ∧
      0 ≤ round2 (t1 - t0) ∧
      (r.success = true → r.data ≠ none ∧ r.error = none) ∧
      (r.success = false → r.data = none ∧ r.error ≠ none) := by
  have hnn : 0 ≤ round2 (t1 - t0) := round2_nonneg (by linarith)
  cases cfgO with
  | none =>
    obtain ⟨r, st1, hb, h1, h2, h3⟩ := dispatchBody_shape d env ti st t0 t1 dt
    refine ⟨r, st1, ?_, h1, hnn, h2, h3⟩
    simp only [executeMySQLTask, hb]
  | some cf =>
    have h1 : (configureAgent d cf st).1 = Except.ok () := hcfg cf rfl
    rcases hca : configureAgent d cf st with ⟨cr, st'⟩
    rw [hca] at h1
    simp only [Prod.fst] at h1
    subst h1
    obtain ⟨r, st1, hb, hd, h2, h3⟩ := dispatchBody_shape d env ti st' t0 t1 dt
    refine ⟨r, st1, ?_, hd, hnn, h2, h3⟩
    simp only [executeMySQLTask, hca, hb]

/-- Witness for C4: a malformed (unknown-tag) request with no configuration
argument still produces a well-formed envelope. -/
theorem c4_dispatch_envelope_amended_witness :
    ∃ r st1,
      executeMySQLTask okDriver {} (.unknown "bogus") none st10 0 1 0 =
        (Except.ok r, st1) ∧
      r.duration_ms = some (round2 (1 - 0)) ∧
      0 ≤ round2 (1 - 0) ∧
      (r.success = true → r.data ≠ none ∧ r.error = none) ∧
      (r.success = false → r.data = none ∧ r.error ≠ none) :=
  c4_dispatch_envelope_amended okDriver {} (.unknown "bogus") none st10 0 1 0
    (fun c h => nomatch h) (by norm_num)

/-- Claim C10: the convenience wrapper `executeQuery sql {allowWrite}` (no
configuration option) returns exactly the dispatcher's result for the QUERY
task carrying the same sql and allowWrite — over every driver, environment,
state and clock. -/
theorem c10_executeQuery_delegates (d : Driver Conn σ Row Info Tables Schema)
    (env : EnvVars) (sql : String) (aw : Bool) (st : ProcState Conn σ)
    (t0 t1 dt : ℚ) :
    executeQuery d env sql (some ⟨some aw, none⟩) st t0 t1 dt =
      executeMySQLTask d env (.query (some ⟨sql, some aw⟩)) none st t0 t1 dt := rfl
